import Mathlib

/-!
# Ed25519 Node.js addon: the boundary layer of `src/main.cpp`

A shallow embedding of the three exported operations (`publicKeyFromSecretKey`,
`sign`, `verify`) and of the two conversions they use (`uint8ArrayToBuffer`,
`bufferToUint8Array`), with `cBoolToBool`.

* Memory is explicit: a list of objects addressed by their index.  Caller
  arrays, the stack output buffers of the dispatchers and the heap objects of
  `bufferToUint8Array` all live in it, so that frame and zeroing properties
  are statements about this list.
* Every `delete` / `delete []` is logged with the contents of the object at
  that moment, and a successful `napi_create_external_arraybuffer` registers
  its finalizer; `runFinalizers` is the host running them later.
* The outcome of every host call and of every `new(nothrow)` is a field of
  `Host`; the values the host reports when a call succeeds are the true ones.
* The Ed25519 library (`./Ed25519-NPM-Package-master/main.cpp`) is not part of
  the sources; it is the parameter `Collaborator`.
-/

namespace Ed25519Addon

/-- One `uint8_t`. -/
abbrev Byte := Fin 256

/-- The element types of a host typed array (`napi_typedarray_type`). -/
inductive napi_typedarray_type
  | napi_int8_array
  | napi_uint8_array
  | napi_uint8_clamped_array
  | napi_int16_array
  | napi_uint16_array
  | napi_int32_array
  | napi_uint32_array
  | napi_float32_array
  | napi_float64_array
  | napi_bigint64_array
  | napi_biguint64_array
  deriving DecidableEq, Repr

/-- Host values (`napi_value`) as far as the addon can tell them apart: a typed
array carries its element type, the address of its storage and its length. -/
inductive napi_value
  | undefined
  | null
  | boolean (b : Bool)
  | number (n : Int)
  | typedarray (type : napi_typedarray_type) (data : Nat) (length : Nat)
  deriving DecidableEq, Repr

/-- The sentinel `OPERATION_FAILED`: the module initialiser fills it with
`napi_get_null` (line 50). -/
def OPERATION_FAILED : napi_value := napi_value.null

/-- An object in memory: an array of bytes, or the `size_t` of a size hint. -/
inductive Obj
  | bytes (bs : List Byte)
  | sizeTag (n : Nat)
  deriving DecidableEq, Repr

/-- Program state: the memory, the log of releases (address and contents at the
moment of `delete`), the finalizers the host holds (`finalizeData`,
`finalizeHint`), and the number of collaborator invocations so far. -/
structure State where
  mem : List Obj
  released : List (Nat × Obj)
  finalizers : List (Nat × Nat)
  collaboratorCalls : Nat
  deriving DecidableEq, Repr

/-- Outcomes of the host-runtime calls and of the `new(nothrow)` allocations of
one exported call.  The typed-array queries are indexed by argument position,
so that each call of `uint8ArrayToBuffer` has outcomes of its own.
`uninitialised` is what fresh storage holds before it is written. -/
structure Host where
  get_cb_info_ok : Bool
  is_typedarray_ok : Nat → Bool
  get_typedarray_info_ok : Nat → Bool
  get_boolean_ok : Bool
  new_buffer_ok : Bool
  new_size_hint_ok : Bool
  create_external_arraybuffer_ok : Bool
  create_typedarray_ok : Bool
  uninitialised : Nat → Byte

/-- The Ed25519 library the addon includes (not among the sources, taken as a
parameter).  The output pointer of `publicKeyFromSecretKey` and `sign` is
rendered as the list of bytes the routine writes from the start of the output
buffer, also when it then reports failure; the inputs are the bytes of the
views it is given. -/
structure Collaborator where
  publicKeySize : Nat
  signatureSize : Nat
  publicKeyFromSecretKey : List Byte → Bool × List Byte
  sign : List Byte → List Byte → Bool × List Byte
  verify : List Byte → List Byte → List Byte → Bool

/-! ## Memory primitives -/

/-- The bytes of the object at address `p` (empty when there is none). -/
def readBytes (m : List Obj) (p : Nat) : List Byte :=
  match m[p]? with
  | some (Obj.bytes bs) => bs
  | _ => []

/-- The bytes of a view `(pointer, length)`. -/
def readView (m : List Obj) (p : Option Nat) (n : Nat) : List Byte :=
  match p with
  | some a => (readBytes m a).take n
  | none => []

/-- Overwrite the start of `old` with `w`, within the bounds of `old`. -/
def overwrite (old w : List Byte) : List Byte :=
  w.take old.length ++ old.drop w.length

/-- Store `w` at the start of the byte object at `p`. -/
def writeBytes (m : List Obj) (p : Nat) (w : List Byte) : List Obj :=
  match m[p]? with
  | some (Obj.bytes bs) => m.set p (Obj.bytes (overwrite bs w))
  | _ => m

/-- The library call `memset(p, c, n)`. -/
def memset (m : List Obj) (p : Nat) (c : Byte) (n : Nat) : List Obj :=
  writeBytes m p (List.replicate n c)

/-- The library call `memcpy(dst, src, n)`. -/
def memcpy (m : List Obj) (dst src : Nat) (n : Nat) : List Obj :=
  writeBytes m dst ((readBytes m src).take n)

/-- Fresh storage of `size` bytes. -/
def freshBytes (environment : Host) (size : Nat) : Obj :=
  Obj.bytes ((List.range size).map environment.uninitialised)

/-- Place a new object in memory; its address is the old length. -/
def allocate (s : State) (o : Obj) : Nat × State :=
  (s.mem.length, { s with mem := s.mem ++ [o] })

/-- The operators `delete` and `delete []`: log the release of `p`. -/
def release (s : State) (p : Nat) : State :=
  { s with released := s.released ++ [(p, (s.mem[p]?).getD (Obj.bytes []))] }

/-! ## Host calls -/

/-- The host call `napi_get_cb_info` with an `argv` of `capacity` slots: status, the
actual argument count, and the first `capacity` arguments padded with
`undefined`. -/
def napi_get_cb_info (environment : Host) (arguments : List napi_value) (capacity : Nat) :
    Bool × Nat × List napi_value :=
  if environment.get_cb_info_ok then
    (true, arguments.length,
      arguments.take capacity ++ List.replicate (capacity - arguments.length) napi_value.undefined)
  else
    (false, capacity, List.replicate capacity napi_value.undefined)

/-- The host call `napi_is_typedarray`: status and answer. -/
def napi_is_typedarray (environment : Host) (position : Nat) (v : napi_value) : Bool × Bool :=
  if environment.is_typedarray_ok position then
    match v with
    | napi_value.typedarray _ _ _ => (true, true)
    | _ => (true, false)
  else (false, false)

/-- The host call `napi_get_typedarray_info`: status, element type, length and data pointer. -/
def napi_get_typedarray_info (environment : Host) (position : Nat) (v : napi_value) :
    Bool × napi_typedarray_type × Nat × Nat :=
  match v with
  | napi_value.typedarray type data length =>
    if environment.get_typedarray_info_ok position then (true, type, length, data)
    else (false, napi_typedarray_type.napi_int8_array, 0, 0)
  | _ => (false, napi_typedarray_type.napi_int8_array, 0, 0)

/-- The finalizer lambda passed to `napi_create_external_arraybuffer` (lines 272-287). -/
def finalize (s : State) (finalizeData finalizeHint : Nat) : State :=
  let buffer := finalizeData
  let sizeHint := finalizeHint
  let size := match s.mem[sizeHint]? with
    | some (Obj.sizeTag n) => n
    | _ => 0
  let s := { s with mem := memset s.mem buffer 0 size }
  let s := release s buffer
  release s sizeHint

/-- The host collecting every external array buffer: each registered finalizer runs once. -/
def runFinalizers (s : State) : State :=
  { s.finalizers.foldl (fun st f => finalize st f.1 f.2) s with finalizers := [] }

/-! ## The functions of `src/main.cpp` -/

/-- Source function `cBoolToBool` (lines 320-332). -/
def cBoolToBool (environment : Host) (value : Bool) : napi_value :=
  if !environment.get_boolean_ok then
    OPERATION_FAILED
  else
    napi_value.boolean value

/-- Source function `uint8ArrayToBuffer` (lines 212-234): data pointer, size and success flag. -/
def uint8ArrayToBuffer (environment : Host) (position : Nat) (uint8Array : napi_value) :
    Option Nat × Nat × Bool :=
  let r := napi_is_typedarray environment position uint8Array
  if !r.1 || !r.2 then
    (none, 0, false)
  else
    let i := napi_get_typedarray_info environment position uint8Array
    if !i.1 || i.2.1 ≠ napi_typedarray_type.napi_uint8_array then
      (none, 0, false)
    else
      (some i.2.2.2, i.2.2.1, true)

/-- Source function `bufferToUint8Array` (lines 237-317). -/
def bufferToUint8Array (environment : Host) (s : State) (data : Nat) (size : Nat) :
    napi_value × State :=
  if !environment.new_buffer_ok then
    let s := { s with mem := memset s.mem data 0 size }
    (OPERATION_FAILED, s)
  else
    let a := allocate s (freshBytes environment size)
    let buffer := a.1
    let s := a.2
    if !environment.new_size_hint_ok then
      let s := { s with mem := memset s.mem data 0 size }
      let s := release s buffer
      (OPERATION_FAILED, s)
    else
      let a := allocate s (Obj.sizeTag size)
      let sizeHint := a.1
      let s := a.2
      let s := { s with mem := memcpy s.mem buffer data size }
      let s := { s with mem := memset s.mem data 0 size }
      if !environment.create_external_arraybuffer_ok then
        let s := { s with mem := memset s.mem buffer 0 size }
        let s := release s buffer
        let s := release s sizeHint
        (OPERATION_FAILED, s)
      else
        let s := { s with finalizers := s.finalizers ++ [(buffer, sizeHint)] }
        if !environment.create_typedarray_ok then
          let s := { s with mem := memset s.mem buffer 0 size }
          let s := release s buffer
          let s := release s sizeHint
          (OPERATION_FAILED, s)
        else
          (napi_value.typedarray napi_typedarray_type.napi_uint8_array buffer size, s)

/-- Source function `publicKeyFromSecretKey` (lines 93-122). -/
def publicKeyFromSecretKey (E : Collaborator) (environment : Host) (s : State)
    (arguments : List napi_value) : napi_value × State :=
  let c := napi_get_cb_info environment arguments 1
  if !c.1 || c.2.1 ≠ 1 then
    (OPERATION_FAILED, s)
  else
    let argv := c.2.2
    let secretKey := uint8ArrayToBuffer environment 0 (argv.getD 0 napi_value.undefined)
    if !secretKey.2.2 then
      (OPERATION_FAILED, s)
    else
      let a := allocate s (freshBytes environment E.publicKeySize)
      let publicKey := a.1
      let s := a.2
      let r := E.publicKeyFromSecretKey (readView s.mem secretKey.1 secretKey.2.1)
      let s := { s with mem := writeBytes s.mem publicKey r.2,
                        collaboratorCalls := s.collaboratorCalls + 1 }
      if !r.1 then
        (OPERATION_FAILED, s)
      else
        bufferToUint8Array environment s publicKey E.publicKeySize

/-- Source function `sign` (lines 125-162). -/
def sign (E : Collaborator) (environment : Host) (s : State)
    (arguments : List napi_value) : napi_value × State :=
  let c := napi_get_cb_info environment arguments 2
  if !c.1 || c.2.1 ≠ 2 then
    (OPERATION_FAILED, s)
  else
    let argv := c.2.2
    let message := uint8ArrayToBuffer environment 0 (argv.getD 0 napi_value.undefined)
    if !message.2.2 then
      (OPERATION_FAILED, s)
    else
      let secretKey := uint8ArrayToBuffer environment 1 (argv.getD 1 napi_value.undefined)
      if !secretKey.2.2 then
        (OPERATION_FAILED, s)
      else
        let a := allocate s (freshBytes environment E.signatureSize)
        let signature := a.1
        let s := a.2
        let r := E.sign (readView s.mem message.1 message.2.1)
          (readView s.mem secretKey.1 secretKey.2.1)
        let s := { s with mem := writeBytes s.mem signature r.2,
                          collaboratorCalls := s.collaboratorCalls + 1 }
        if !r.1 then
          (OPERATION_FAILED, s)
        else
          bufferToUint8Array environment s signature E.signatureSize

/-- Source function `verify` (lines 165-209). -/
def verify (E : Collaborator) (environment : Host) (s : State)
    (arguments : List napi_value) : napi_value × State :=
  let c := napi_get_cb_info environment arguments 3
  if !c.1 || c.2.1 ≠ 3 then
    (cBoolToBool environment false, s)
  else
    let argv := c.2.2
    let message := uint8ArrayToBuffer environment 0 (argv.getD 0 napi_value.undefined)
    if !message.2.2 then
      (cBoolToBool environment false, s)
    else
      let signature := uint8ArrayToBuffer environment 1 (argv.getD 1 napi_value.undefined)
      if !signature.2.2 then
        (cBoolToBool environment false, s)
      else
        let publicKey := uint8ArrayToBuffer environment 2 (argv.getD 2 napi_value.undefined)
        if !publicKey.2.2 then
          (cBoolToBool environment false, s)
        else
          let s := { s with collaboratorCalls := s.collaboratorCalls + 1 }
          if !E.verify (readView s.mem message.1 message.2.1)
              (readView s.mem signature.1 signature.2.1)
              (readView s.mem publicKey.1 publicKey.2.1) then
            (cBoolToBool environment false, s)
          else
            (cBoolToBool environment true, s)

/-! ## Specification-side definitions -/

/-- Whether a host value is a typed array of single-byte unsigned elements. -/
def isUint8Array (v : napi_value) : Bool :=
  match v with
  | napi_value.typedarray napi_typedarray_type.napi_uint8_array _ _ => true
  | _ => false

/-- The condition under which the specification lets `verify` answer `true`:
exactly three arguments, each resolved by `uint8ArrayToBuffer`, and the
collaborator accepting the three views in the order message, signature,
public key. -/
def verifySpec (E : Collaborator) (environment : Host) (s : State)
    (arguments : List napi_value) : Bool :=
  match arguments with
  | [m, sg, pk] =>
    let message := uint8ArrayToBuffer environment 0 m
    let signature := uint8ArrayToBuffer environment 1 sg
    let publicKey := uint8ArrayToBuffer environment 2 pk
    message.2.2 && signature.2.2 && publicKey.2.2 &&
      E.verify (readView s.mem message.1 message.2.1)
        (readView s.mem signature.1 signature.2.1)
        (readView s.mem publicKey.1 publicKey.2.1)
  | _ => false

/-- The contents of an output buffer of `size` bytes after the collaborator
wrote `w` from its start: the buffer is fresh storage before the call. -/
def outputBuffer (environment : Host) (size : Nat) (w : List Byte) : List Byte :=
  overwrite ((List.range size).map environment.uninitialised) w

/-- No host call and no allocation fails. -/
def hostSucceeds (environment : Host) : Prop :=
  environment.get_cb_info_ok = true ∧
  (∀ i, environment.is_typedarray_ok i = true) ∧
  (∀ i, environment.get_typedarray_info_ok i = true) ∧
  environment.get_boolean_ok = true ∧
  environment.new_buffer_ok = true ∧
  environment.new_size_hint_ok = true ∧
  environment.create_external_arraybuffer_ok = true ∧
  environment.create_typedarray_ok = true

/-- The round-trip contract of the collaborator for the secret keys in `valid`:
deriving and signing report success and fill their output buffers
(`publicKeySize` and `signatureSize` bytes), and the signature verifies under
the derived public key. -/
def collaboratorRoundTrip (E : Collaborator) (valid : List Byte → Prop) : Prop :=
  ∀ m sk, valid sk →
    (E.publicKeyFromSecretKey sk).1 = true ∧
    (E.publicKeyFromSecretKey sk).2.length = E.publicKeySize ∧
    (E.sign m sk).1 = true ∧
    (E.sign m sk).2.length = E.signatureSize ∧
    E.verify m (E.sign m sk).2 (E.publicKeyFromSecretKey sk).2 = true

/-- How many times the object at `p` has been released. -/
def releaseCount (s : State) (p : Nat) : Nat :=
  (s.released.filter (fun r => r.1 == p)).length

/-- All bytes of a list are zero. -/
def allZero (bs : List Byte) : Bool := bs.all (fun b => b == 0)

/-! ## Concrete data for the witnesses -/

/-- A small collaborator: two-byte keys, three-byte signatures.  A secret key
of the wrong length makes it write one byte and report failure. -/
def demoEd25519 : Collaborator where
  publicKeySize := 2
  signatureSize := 3
  publicKeyFromSecretKey := fun sk =>
    if sk.length = 2 then (true, sk.map (fun b => b + 1)) else (false, [7])
  sign := fun m sk =>
    if sk.length = 2 then (true, Fin.ofNat m.length :: sk.map (fun b => b + 1)) else (false, [9])
  verify := fun m sg pk => sg == Fin.ofNat m.length :: pk

/-- A host on which every call succeeds; fresh storage holds the byte 170. -/
def demoHost : Host where
  get_cb_info_ok := true
  is_typedarray_ok := fun _ => true
  get_typedarray_info_ok := fun _ => true
  get_boolean_ok := true
  new_buffer_ok := true
  new_size_hint_ok := true
  create_external_arraybuffer_ok := true
  create_typedarray_ok := true
  uninitialised := fun _ => 170

/-- A state with three caller arrays: a message at 0, a secret key at 1 and a
one-byte array at 2. -/
def demoState : State where
  mem := [Obj.bytes [104, 105], Obj.bytes [1, 2], Obj.bytes [5]]
  released := []
  finalizers := []
  collaboratorCalls := 0

/-- The message array of `demoState`. -/
def demoMessage : napi_value :=
  napi_value.typedarray napi_typedarray_type.napi_uint8_array 0 2

/-- The secret-key array of `demoState`. -/
def demoSecretKey : napi_value :=
  napi_value.typedarray napi_typedarray_type.napi_uint8_array 1 2

/-- The state `demoState` with two more caller arrays: the signature of the demo
message at 3 and the public key of the demo secret key at 4. -/
def demoSignedState : State :=
  { demoState with mem := demoState.mem ++ [Obj.bytes [2, 2, 3], Obj.bytes [2, 3]] }

/-- The signature array of `demoSignedState`. -/
def demoSignature : napi_value :=
  napi_value.typedarray napi_typedarray_type.napi_uint8_array 3 3

/-- The public-key array of `demoSignedState`. -/
def demoPublicKey : napi_value :=
  napi_value.typedarray napi_typedarray_type.napi_uint8_array 4 2

/-- The one-byte array of `demoState`, too short to be a secret key. -/
def demoShortKey : napi_value :=
  napi_value.typedarray napi_typedarray_type.napi_uint8_array 2 1


/-! ## Verification is a predicate (C1, C2) -/

/-- The value `cBoolToBool` yields when the host can create booleans. -/
theorem cBoolToBool_of_ok (environment : Host) (value : Bool)
    (hb : environment.get_boolean_ok = true) :
    cBoolToBool environment value = napi_value.boolean value := by
  simp [cBoolToBool, hb]

/-- Every exit of `verify` goes through `cBoolToBool`. -/
theorem verify_fst_eq_cBoolToBool (E : Collaborator) (environment : Host) (s : State)
    (arguments : List napi_value) :
    ∃ b, (verify E environment s arguments).1 = cBoolToBool environment b := by
  unfold verify
  simp only []
  split_ifs <;> exact ⟨_, rfl⟩

/-- C1, as the code has it: when the host can create booleans, `verify`
returns a host boolean and never the `OPERATION_FAILED` sentinel, whatever the
arguments and whatever the outcome of every other host call. -/
theorem verify_returns_boolean (E : Collaborator) (environment : Host) (s : State)
    (arguments : List napi_value) (hb : environment.get_boolean_ok = true) :
    (∃ b, (verify E environment s arguments).1 = napi_value.boolean b) ∧
      (verify E environment s arguments).1 ≠ OPERATION_FAILED := by
  obtain ⟨b, h⟩ := verify_fst_eq_cBoolToBool E environment s arguments
  rw [cBoolToBool_of_ok environment b hb] at h
  refine ⟨⟨b, h⟩, ?_⟩
  rw [h]
  simp [OPERATION_FAILED]

/-- Witness of C1: a call without arguments on a host that can create booleans. -/
theorem verify_returns_boolean_witness :
    demoHost.get_boolean_ok = true ∧
      ((∃ b, (verify demoEd25519 demoHost demoState []).1 = napi_value.boolean b) ∧
        (verify demoEd25519 demoHost demoState []).1 ≠ OPERATION_FAILED) :=
  ⟨rfl, verify_returns_boolean demoEd25519 demoHost demoState [] rfl⟩

/-- Counterexample to C1 as stated: on a host that cannot create the boolean,
`verify` returns the `OPERATION_FAILED` sentinel, which is not a boolean. -/
theorem verify_returns_sentinel_without_boolean :
    (verify demoEd25519 { demoHost with get_boolean_ok := false } demoState
        [demoMessage, demoMessage, demoSecretKey]).1 = OPERATION_FAILED ∧
      ¬ ∃ b, (verify demoEd25519 { demoHost with get_boolean_ok := false } demoState
        [demoMessage, demoMessage, demoSecretKey]).1 = napi_value.boolean b := by
  decide

/-- With `napi_get_cb_info` succeeding, `verify` computes `verifySpec`. -/
theorem verify_fst_eq_spec (E : Collaborator) (environment : Host) (s : State)
    (arguments : List napi_value) (hc : environment.get_cb_info_ok = true) :
    (verify E environment s arguments).1 =
      cBoolToBool environment (verifySpec E environment s arguments) := by
  match arguments with
  | [] => simp [verify, verifySpec, napi_get_cb_info, hc]
  | [_] => simp [verify, verifySpec, napi_get_cb_info, hc]
  | [_, _] => simp [verify, verifySpec, napi_get_cb_info, hc]
  | _ :: _ :: _ :: _ :: _ => simp [verify, verifySpec, napi_get_cb_info, hc]
  | [m, sg, pk] =>
    simp only [verify, verifySpec, napi_get_cb_info, hc]
    simp only [List.length_cons, List.length_nil, List.take, List.getD_cons_zero,
      List.getD_cons_succ, List.cons_append, List.nil_append, List.replicate]
    by_cases h0 : (uint8ArrayToBuffer environment 0 m).2.2 = true <;>
    by_cases h1 : (uint8ArrayToBuffer environment 1 sg).2.2 = true <;>
    by_cases h2 : (uint8ArrayToBuffer environment 2 pk).2.2 = true <;>
    simp [h0, h1, h2]
    split_ifs <;> simp_all

/-- C2, as the code has it: when the host can create booleans and
`napi_get_cb_info` succeeds, `verify` returns `true` exactly when three
arguments were passed, each resolves through `uint8ArrayToBuffer`, and the
collaborator accepts the three views in the order message, signature, public
key; in every other such case it returns `false`. -/
theorem verify_true_iff (E : Collaborator) (environment : Host) (s : State)
    (arguments : List napi_value) (hb : environment.get_boolean_ok = true)
    (hc : environment.get_cb_info_ok = true) :
    ((verify E environment s arguments).1 = napi_value.boolean true ↔
        verifySpec E environment s arguments = true) ∧
      (verifySpec E environment s arguments = false →
        (verify E environment s arguments).1 = napi_value.boolean false) := by
  rw [verify_fst_eq_spec E environment s arguments hc, cBoolToBool_of_ok environment _ hb]
  constructor
  · simp
  · intro h
    rw [h]

/-- Witness of C2: a signature made by the demo collaborator verifies. -/
theorem verify_true_iff_witness :
    demoHost.get_boolean_ok = true ∧ demoHost.get_cb_info_ok = true ∧
      (((verify demoEd25519 demoHost demoSignedState
          [demoMessage, demoSignature, demoPublicKey]).1 = napi_value.boolean true ↔
          verifySpec demoEd25519 demoHost demoSignedState
            [demoMessage, demoSignature, demoPublicKey] = true) ∧
        (verifySpec demoEd25519 demoHost demoSignedState
            [demoMessage, demoSignature, demoPublicKey] = false →
          (verify demoEd25519 demoHost demoSignedState
            [demoMessage, demoSignature, demoPublicKey]).1 = napi_value.boolean false)) :=
  ⟨rfl, rfl, verify_true_iff demoEd25519 demoHost demoSignedState
    [demoMessage, demoSignature, demoPublicKey] rfl rfl⟩

/-- Counterexample to C2 as stated: three uint8 arrays that resolve and that
the collaborator accepts, on a host that can create booleans but whose
`napi_get_cb_info` fails; `verify` returns `false`. -/
theorem verify_false_when_cb_info_fails :
    ({ demoHost with get_cb_info_ok := false } : Host).get_boolean_ok = true ∧
      [demoMessage, demoSignature, demoPublicKey].length = 3 ∧
      verifySpec demoEd25519 { demoHost with get_cb_info_ok := false } demoSignedState
        [demoMessage, demoSignature, demoPublicKey] = true ∧
      (verify demoEd25519 { demoHost with get_cb_info_ok := false } demoSignedState
        [demoMessage, demoSignature, demoPublicKey]).1 = napi_value.boolean false := by
  decide

/-! ## Failure mapping of `publicKeyFromSecretKey` and `sign` (C3) -/

/-- What a resolved value is: a uint8 typed array, with its own pointer and length. -/
theorem uint8ArrayToBuffer_ok (environment : Host) (position : Nat) (v : napi_value)
    (h : (uint8ArrayToBuffer environment position v).2.2 = true) :
    ∃ data length, v = napi_value.typedarray napi_typedarray_type.napi_uint8_array data length ∧
      uint8ArrayToBuffer environment position v = (some data, length, true) := by
  cases v with
  | typedarray type data length =>
    refine ⟨data, length, ?_⟩
    by_cases h1 : environment.is_typedarray_ok position = true <;>
      by_cases h2 : environment.get_typedarray_info_ok position = true <;>
      by_cases h3 : type = napi_typedarray_type.napi_uint8_array <;>
      simp_all [uint8ArrayToBuffer, napi_is_typedarray, napi_get_typedarray_info]
  | _ =>
    by_cases h1 : environment.is_typedarray_ok position = true <;>
      simp_all [uint8ArrayToBuffer, napi_is_typedarray, napi_get_typedarray_info]

/-- A value that is not a uint8 typed array does not resolve. -/
theorem uint8ArrayToBuffer_not_uint8 (environment : Host) (position : Nat) (v : napi_value)
    (hv : isUint8Array v = false) : (uint8ArrayToBuffer environment position v).2.2 = false := by
  by_contra hne
  have ht : (uint8ArrayToBuffer environment position v).2.2 = true := by simpa using hne
  obtain ⟨data, length, rfl, _⟩ := uint8ArrayToBuffer_ok environment position v ht
  simp [isUint8Array] at hv

/-- A uint8 typed array resolves to its own view when both host queries succeed. -/
theorem uint8ArrayToBuffer_uint8 (environment : Host) (position data length : Nat)
    (h1 : environment.is_typedarray_ok position = true)
    (h2 : environment.get_typedarray_info_ok position = true) :
    uint8ArrayToBuffer environment position
        (napi_value.typedarray napi_typedarray_type.napi_uint8_array data length)
      = (some data, length, true) := by
  simp [uint8ArrayToBuffer, napi_is_typedarray, napi_get_typedarray_info, h1, h2]

/-- Bad arity or a bad argument type leaves `publicKeyFromSecretKey` at the sentinel
with the state untouched. -/
theorem publicKeyFromSecretKey_rejects (E : Collaborator) (environment : Host) (s : State)
    (arguments : List napi_value)
    (h : arguments.length ≠ 1 ∨ ∃ v, v ∈ arguments ∧ isUint8Array v = false) :
    publicKeyFromSecretKey E environment s arguments = (OPERATION_FAILED, s) := by
  by_cases hc : environment.get_cb_info_ok = true
  · match arguments, h with
    | [], _ => simp [publicKeyFromSecretKey, napi_get_cb_info, hc]
    | _ :: _ :: _, _ => simp [publicKeyFromSecretKey, napi_get_cb_info, hc]
    | [a], h =>
      have ha : isUint8Array a = false := by simpa using h
      simp [publicKeyFromSecretKey, napi_get_cb_info, hc,
        uint8ArrayToBuffer_not_uint8 environment 0 a ha]
  · simp [publicKeyFromSecretKey, napi_get_cb_info, hc]

/-- Bad arity or a bad argument type leaves `sign` at the sentinel with the state
untouched. -/
theorem sign_rejects (E : Collaborator) (environment : Host) (s : State)
    (arguments : List napi_value)
    (h : arguments.length ≠ 2 ∨ ∃ v, v ∈ arguments ∧ isUint8Array v = false) :
    sign E environment s arguments = (OPERATION_FAILED, s) := by
  by_cases hc : environment.get_cb_info_ok = true
  · match arguments, h with
    | [], _ => simp [sign, napi_get_cb_info, hc]
    | [_], _ => simp [sign, napi_get_cb_info, hc]
    | _ :: _ :: _ :: _, _ => simp [sign, napi_get_cb_info, hc]
    | [a, b], h =>
      have hab : isUint8Array a = false ∨ isUint8Array b = false := by simpa using h
      rcases hab with ha | hb
      · simp [sign, napi_get_cb_info, hc, uint8ArrayToBuffer_not_uint8 environment 0 a ha]
      · simp [sign, napi_get_cb_info, hc, uint8ArrayToBuffer_not_uint8 environment 1 b hb]
  · simp [sign, napi_get_cb_info, hc]

/-- Objects already in memory are read the same after further allocations. -/
theorem readView_append (m l : List Obj) (data n : Nat) (hd : data < m.length) :
    readView (m ++ l) (some data) n = readView m (some data) n := by
  simp [readView, readBytes, List.getElem?_append_left hd]

/-- When the collaborator rejects the secret key, `publicKeyFromSecretKey` returns the sentinel. -/
theorem publicKeyFromSecretKey_collaborator_fails (E : Collaborator) (environment : Host)
    (s : State) (data length : Nat) (hd : data < s.mem.length)
    (hf : (E.publicKeyFromSecretKey (readView s.mem (some data) length)).1 = false) :
    (publicKeyFromSecretKey E environment s
      [napi_value.typedarray napi_typedarray_type.napi_uint8_array data length]).1
      = OPERATION_FAILED := by
  by_cases hc : environment.get_cb_info_ok = true
  · by_cases hq : (uint8ArrayToBuffer environment 0
        (napi_value.typedarray napi_typedarray_type.napi_uint8_array data length)).2.2 = true
    · obtain ⟨d, l, hv, hres⟩ := uint8ArrayToBuffer_ok environment 0 _ hq
      simp only [napi_value.typedarray.injEq, true_and] at hv
      obtain ⟨rfl, rfl⟩ := hv
      simp [publicKeyFromSecretKey, napi_get_cb_info, hc, hres, allocate,
        readView_append _ _ _ _ hd, hf]
    · simp [publicKeyFromSecretKey, napi_get_cb_info, hc, hq]
  · simp [publicKeyFromSecretKey, napi_get_cb_info, hc]

/-- When the collaborator rejects the message or the secret key, `sign` returns the sentinel. -/
theorem sign_collaborator_fails (E : Collaborator) (environment : Host)
    (s : State) (mdata mlength kdata klength : Nat)
    (hm : mdata < s.mem.length) (hk : kdata < s.mem.length)
    (hf : (E.sign (readView s.mem (some mdata) mlength)
      (readView s.mem (some kdata) klength)).1 = false) :
    (sign E environment s
      [napi_value.typedarray napi_typedarray_type.napi_uint8_array mdata mlength,
        napi_value.typedarray napi_typedarray_type.napi_uint8_array kdata klength]).1
      = OPERATION_FAILED := by
  by_cases hc : environment.get_cb_info_ok = true
  · by_cases hq : (uint8ArrayToBuffer environment 0
        (napi_value.typedarray napi_typedarray_type.napi_uint8_array mdata mlength)).2.2 = true
    · by_cases hq2 : (uint8ArrayToBuffer environment 1
          (napi_value.typedarray napi_typedarray_type.napi_uint8_array kdata klength)).2.2 = true
      · obtain ⟨d, l, hv, hres⟩ := uint8ArrayToBuffer_ok environment 0 _ hq
        simp only [napi_value.typedarray.injEq, true_and] at hv
        obtain ⟨rfl, rfl⟩ := hv
        obtain ⟨d2, l2, hv2, hres2⟩ := uint8ArrayToBuffer_ok environment 1 _ hq2
        simp only [napi_value.typedarray.injEq, true_and] at hv2
        obtain ⟨rfl, rfl⟩ := hv2
        simp [sign, napi_get_cb_info, hc, hres, hres2, allocate,
          readView_append _ _ _ _ hm, readView_append _ _ _ _ hk, hf]
      · simp [sign, napi_get_cb_info, hc, hq2]
    · simp [sign, napi_get_cb_info, hc, hq]
  · simp [sign, napi_get_cb_info, hc]

/-- C3: `publicKeyFromSecretKey` and `sign` return the `OPERATION_FAILED`
sentinel whenever the number of arguments differs from the required one (1 and
2), whenever some argument is not a uint8 typed array, and whenever the
collaborator reports failure on the views of the caller arrays; in the arity
and type cases the collaborator is not invoked (its call count, like the rest
of the state, is unchanged). -/
theorem failure_yields_sentinel (E : Collaborator) (environment : Host) (s : State)
    (arguments : List napi_value) :
    ((arguments.length ≠ 1 ∨ ∃ v, v ∈ arguments ∧ isUint8Array v = false) →
        (publicKeyFromSecretKey E environment s arguments).1 = OPERATION_FAILED ∧
        (publicKeyFromSecretKey E environment s arguments).2.collaboratorCalls
          = s.collaboratorCalls) ∧
    ((arguments.length ≠ 2 ∨ ∃ v, v ∈ arguments ∧ isUint8Array v = false) →
        (sign E environment s arguments).1 = OPERATION_FAILED ∧
        (sign E environment s arguments).2.collaboratorCalls = s.collaboratorCalls) ∧
    (∀ data length,
        arguments = [napi_value.typedarray napi_typedarray_type.napi_uint8_array data length] →
        data < s.mem.length →
        (E.publicKeyFromSecretKey (readView s.mem (some data) length)).1 = false →
        (publicKeyFromSecretKey E environment s arguments).1 = OPERATION_FAILED) ∧
    (∀ mdata mlength kdata klength,
        arguments = [napi_value.typedarray napi_typedarray_type.napi_uint8_array mdata mlength,
          napi_value.typedarray napi_typedarray_type.napi_uint8_array kdata klength] →
        mdata < s.mem.length → kdata < s.mem.length →
        (E.sign (readView s.mem (some mdata) mlength)
          (readView s.mem (some kdata) klength)).1 = false →
        (sign E environment s arguments).1 = OPERATION_FAILED) := by
  refine ⟨?_, ?_, ?_, ?_⟩
  · intro h
    rw [publicKeyFromSecretKey_rejects E environment s arguments h]
    exact ⟨rfl, rfl⟩
  · intro h
    rw [sign_rejects E environment s arguments h]
    exact ⟨rfl, rfl⟩
  · intro data length ha hd hf
    subst ha
    exact publicKeyFromSecretKey_collaborator_fails E environment s data length hd hf
  · intro mdata mlength kdata klength ha hm hk hf
    subst ha
    exact sign_collaborator_fails E environment s mdata mlength kdata klength hm hk hf

/-- Witness of C3: too many arguments for `publicKeyFromSecretKey`, a boolean
passed to `sign`, and the one-byte key that the demo collaborator rejects in
both operations. -/
theorem failure_yields_sentinel_witness :
    ((publicKeyFromSecretKey demoEd25519 demoHost demoState
        [demoSecretKey, demoSecretKey]).1 = OPERATION_FAILED ∧
      (publicKeyFromSecretKey demoEd25519 demoHost demoState
        [demoSecretKey, demoSecretKey]).2.collaboratorCalls = demoState.collaboratorCalls) ∧
    ((sign demoEd25519 demoHost demoState
        [demoMessage, napi_value.boolean true]).1 = OPERATION_FAILED ∧
      (sign demoEd25519 demoHost demoState
        [demoMessage, napi_value.boolean true]).2.collaboratorCalls
        = demoState.collaboratorCalls) ∧
    (publicKeyFromSecretKey demoEd25519 demoHost demoState [demoShortKey]).1
      = OPERATION_FAILED ∧
    (sign demoEd25519 demoHost demoState [demoMessage, demoShortKey]).1 = OPERATION_FAILED :=
  ⟨(failure_yields_sentinel demoEd25519 demoHost demoState
      [demoSecretKey, demoSecretKey]).1 (Or.inl (by decide)),
    (failure_yields_sentinel demoEd25519 demoHost demoState
      [demoMessage, napi_value.boolean true]).2.1
      (Or.inr ⟨napi_value.boolean true, by decide, by decide⟩),
    (failure_yields_sentinel demoEd25519 demoHost demoState [demoShortKey]).2.2.1
      2 1 rfl (by decide) (by decide),
    (failure_yields_sentinel demoEd25519 demoHost demoState [demoMessage, demoShortKey]).2.2.2
      0 2 2 1 rfl (by decide) (by decide) (by decide)⟩

/-! ## Memory lemmas -/

/-- Writing bytes keeps the number of objects. -/
theorem length_writeBytes (m : List Obj) (p : Nat) (w : List Byte) :
    (writeBytes m p w).length = m.length := by
  unfold writeBytes
  split <;> simp

/-- Writing at `p` leaves every other address alone. -/
theorem getElem?_writeBytes_ne (m : List Obj) (p q : Nat) (w : List Byte) (h : p ≠ q) :
    (writeBytes m p w)[q]? = m[q]? := by
  unfold writeBytes
  split
  · simp [List.getElem?_set, h]
  · rfl

/-- Writing at a byte object overwrites its start. -/
theorem getElem?_writeBytes_self (m : List Obj) (p : Nat) (w bs : List Byte)
    (h : m[p]? = some (Obj.bytes bs)) :
    (writeBytes m p w)[p]? = some (Obj.bytes (overwrite bs w)) := by
  have hp : p < m.length := by
    by_contra hn
    rw [List.getElem?_eq_none (by omega)] at h
    simp at h
  unfold writeBytes
  rw [h]
  simp [List.getElem?_set, hp]

/-- Zeroing `size` bytes of an object of at least that length. -/
theorem take_overwrite_replicate (bs : List Byte) (c : Byte) (size : Nat)
    (h : size ≤ bs.length) :
    (overwrite bs (List.replicate size c)).take size = List.replicate size c := by
  simp [overwrite, List.take_append_eq_append_take, List.take_replicate, h]

/-- Overwriting keeps the length. -/
theorem length_overwrite (old w : List Byte) : (overwrite old w).length = old.length := by
  simp [overwrite]
  omega

/-- The memory cell of the source after `bufferToUint8Array`, on every path. -/
theorem bufferToUint8Array_source (environment : Host) (s : State) (data size : Nat)
    (bs : List Byte) (hd : s.mem[data]? = some (Obj.bytes bs)) :
    (bufferToUint8Array environment s data size).2.mem[data]?
      = some (Obj.bytes (overwrite bs (List.replicate size 0))) := by
  have hlt : data < s.mem.length := by
    by_contra hn
    rw [List.getElem?_eq_none (by omega)] at hd
    simp at hd
  have hne : s.mem.length ≠ data := by omega
  have hd1 : ∀ o : Obj, (s.mem ++ [o])[data]? = some (Obj.bytes bs) := by
    intro o
    rw [List.getElem?_append_left hlt, hd]
  have hd2 : ∀ o o2 : Obj, (s.mem ++ [o] ++ [o2])[data]? = some (Obj.bytes bs) := by
    intro o o2
    rw [List.getElem?_append_left (by simp; omega), hd1]
  unfold bufferToUint8Array
  by_cases h1 : environment.new_buffer_ok = true
  · by_cases h2 : environment.new_size_hint_ok = true
    · by_cases h3 : environment.create_external_arraybuffer_ok = true
      · by_cases h4 : environment.create_typedarray_ok = true
        · simp only [h1, h2, h3, h4, allocate, memset, memcpy, release]
          simp
          apply getElem?_writeBytes_self
          rw [getElem?_writeBytes_ne _ _ _ _ hne]
          simpa using hd2 _ _
        · simp only [h1, h2, h3, h4, allocate, memset, memcpy, release]
          simp
          rw [getElem?_writeBytes_ne _ _ _ _ hne]
          apply getElem?_writeBytes_self
          rw [getElem?_writeBytes_ne _ _ _ _ hne]
          simpa using hd2 _ _
      · simp only [h1, h2, h3, allocate, memset, memcpy, release]
        simp
        rw [getElem?_writeBytes_ne _ _ _ _ hne]
        apply getElem?_writeBytes_self
        rw [getElem?_writeBytes_ne _ _ _ _ hne]
        simpa using hd2 _ _
    · simp only [h1, h2, allocate, memset, release]
      simp
      exact getElem?_writeBytes_self _ _ _ _ (hd1 _)
  · simp only [h1, memset]
    simp
    exact getElem?_writeBytes_self _ _ _ _ hd

/-- Objects other than the source that were in memory before `bufferToUint8Array`
are unchanged by it, on every path. -/
theorem bufferToUint8Array_frame (environment : Host) (s : State) (data size q : Nat)
    (hq : q < s.mem.length) (hne : data ≠ q) :
    (bufferToUint8Array environment s data size).2.mem[q]? = s.mem[q]? := by
  have hb : s.mem.length ≠ q := by omega
  have h1q : ∀ o : Obj, (s.mem ++ [o])[q]? = s.mem[q]? := by
    intro o
    rw [List.getElem?_append_left hq]
  have h2q : ∀ o o2 : Obj, (s.mem ++ [o] ++ [o2])[q]? = s.mem[q]? := by
    intro o o2
    rw [List.getElem?_append_left (by simp; omega), h1q]
  unfold bufferToUint8Array
  by_cases h1 : environment.new_buffer_ok = true
  · by_cases h2 : environment.new_size_hint_ok = true
    · by_cases h3 : environment.create_external_arraybuffer_ok = true
      · by_cases h4 : environment.create_typedarray_ok = true
        · simp only [h1, h2, h3, h4, allocate, memset, memcpy, release]
          simp
          rw [getElem?_writeBytes_ne _ _ _ _ hne, getElem?_writeBytes_ne _ _ _ _ hb]
          simpa using h2q _ _
        · simp only [h1, h2, h3, h4, allocate, memset, memcpy, release]
          simp
          rw [getElem?_writeBytes_ne _ _ _ _ hb, getElem?_writeBytes_ne _ _ _ _ hne,
            getElem?_writeBytes_ne _ _ _ _ hb]
          simpa using h2q _ _
      · simp only [h1, h2, h3, allocate, memset, memcpy, release]
        simp
        rw [getElem?_writeBytes_ne _ _ _ _ hb, getElem?_writeBytes_ne _ _ _ _ hne,
          getElem?_writeBytes_ne _ _ _ _ hb]
        simpa using h2q _ _
    · simp only [h1, h2, allocate, memset, release]
      simp
      rw [getElem?_writeBytes_ne _ _ _ _ hne]
      exact h1q _
  · simp only [h1, memset]
    simp
    exact getElem?_writeBytes_ne _ _ _ _ hne

/-! ## Zeroing of the source of the outbound conversion (C7) -/

/-- C7: on every exit path of `bufferToUint8Array` (success, failure to allocate
the result buffer, failure to allocate the size tag, failure to create the
external array buffer, failure to create the typed array), the `size` bytes of
the source buffer are zero when the function returns. -/
theorem bufferToUint8Array_zeroes_source (environment : Host) (s : State) (data size : Nat)
    (bs : List Byte) (hd : s.mem[data]? = some (Obj.bytes bs)) (hsz : size ≤ bs.length) :
    (readBytes (bufferToUint8Array environment s data size).2.mem data).take size
      = List.replicate size 0 := by
  unfold readBytes
  rw [bufferToUint8Array_source environment s data size bs hd]
  exact take_overwrite_replicate bs 0 size hsz

/-- Witness of C7: the two-byte object at address 1 as source, on a host whose
typed-array creation fails. -/
theorem bufferToUint8Array_zeroes_source_witness :
    demoState.mem[1]? = some (Obj.bytes [1, 2]) ∧ 2 ≤ [(1 : Byte), 2].length ∧
      (readBytes (bufferToUint8Array { demoHost with create_typedarray_ok := false }
        demoState 1 2).2.mem 1).take 2 = List.replicate 2 0 :=
  ⟨rfl, by decide,
    bufferToUint8Array_zeroes_source { demoHost with create_typedarray_ok := false }
      demoState 1 2 [1, 2] rfl (by decide)⟩


/-! ## The success path (C4, C5) -/

/-- Overwriting a whole buffer leaves exactly the written bytes. -/
theorem overwrite_of_length_eq (old w : List Byte) (h : w.length = old.length) :
    overwrite old w = w := by
  simp [overwrite, ← h]

/-- The success path of `bufferToUint8Array`: the result is a uint8 array of
`size` bytes over the new heap buffer, which holds a copy of the source taken
before the source was zeroed. -/
theorem bufferToUint8Array_success (environment : Host) (s : State) (data size : Nat)
    (bs : List Byte) (hd : s.mem[data]? = some (Obj.bytes bs)) (hsz : size ≤ bs.length)
    (h1 : environment.new_buffer_ok = true) (h2 : environment.new_size_hint_ok = true)
    (h3 : environment.create_external_arraybuffer_ok = true)
    (h4 : environment.create_typedarray_ok = true) :
    (bufferToUint8Array environment s data size).1
        = napi_value.typedarray napi_typedarray_type.napi_uint8_array s.mem.length size ∧
      (bufferToUint8Array environment s data size).2.mem[s.mem.length]?
        = some (Obj.bytes (bs.take size)) := by
  have hlt : data < s.mem.length := by
    by_contra hn
    rw [List.getElem?_eq_none (by omega)] at hd
    simp at hd
  have hne : data ≠ s.mem.length := by omega
  have hd2 : ∀ o o2 : Obj, (s.mem ++ [o] ++ [o2])[data]? = some (Obj.bytes bs) := by
    intro o o2
    rw [List.getElem?_append_left (by simp; omega), List.getElem?_append_left hlt, hd]
  have hb2 : ∀ o o2 : Obj, (s.mem ++ [o] ++ [o2])[s.mem.length]? = some o := by
    intro o o2
    rw [List.getElem?_append_left (by simp)]
    simp
  unfold bufferToUint8Array
  simp only [h1, h2, h3, h4, allocate, memset, memcpy, freshBytes]
  simp only [Bool.not_true, Bool.false_eq_true, if_false, true_and]
  rw [getElem?_writeBytes_ne _ _ _ _ hne]
  have hcell := getElem?_writeBytes_self (s.mem ++ [Obj.bytes ((List.range size).map
    environment.uninitialised)] ++ [Obj.sizeTag size]) s.mem.length
    ((readBytes (s.mem ++ [Obj.bytes ((List.range size).map
      environment.uninitialised)] ++ [Obj.sizeTag size]) data).take size)
    ((List.range size).map environment.uninitialised) (hb2 _ _)
  simp only [List.append_assoc, List.singleton_append] at hcell ⊢
  rw [hcell]
  have hr : readBytes (s.mem ++ Obj.bytes ((List.range size).map
      environment.uninitialised) :: [Obj.sizeTag size]) data = bs := by
    have := hd2 (Obj.bytes ((List.range size).map environment.uninitialised)) (Obj.sizeTag size)
    simp only [List.append_assoc, List.singleton_append] at this
    simp [readBytes, this]
  rw [hr, overwrite_of_length_eq]
  simp [hsz]

/-- The stack output buffer right after the collaborator wrote `w` into it. -/
theorem stack_buffer_cell (environment : Host) (m : List Obj) (size : Nat) (w : List Byte) :
    (writeBytes (m ++ [freshBytes environment size]) m.length w)[m.length]?
      = some (Obj.bytes (outputBuffer environment size w)) := by
  apply getElem?_writeBytes_self
  simp [freshBytes]

/-- The collaborator is invoked by `publicKeyFromSecretKey` only after
`napi_get_cb_info` succeeded and the argument resolved. -/
theorem publicKeyFromSecretKey_invoked (E : Collaborator) (environment : Host) (s : State)
    (v : napi_value)
    (h : (publicKeyFromSecretKey E environment s [v]).2.collaboratorCalls
      = s.collaboratorCalls + 1) :
    environment.get_cb_info_ok = true ∧ (uint8ArrayToBuffer environment 0 v).2.2 = true := by
  by_cases hc : environment.get_cb_info_ok = true
  · by_cases hq : (uint8ArrayToBuffer environment 0 v).2.2 = true
    · exact ⟨hc, hq⟩
    · simp [publicKeyFromSecretKey, napi_get_cb_info, hc, hq] at h
  · simp [publicKeyFromSecretKey, napi_get_cb_info, hc] at h

/-- The success path of `publicKeyFromSecretKey` in terms of host outcomes. -/
theorem publicKeyFromSecretKey_ok (E : Collaborator) (environment : Host) (s : State)
    (data length : Nat) (hd : data < s.mem.length)
    (hc : environment.get_cb_info_ok = true)
    (hq : uint8ArrayToBuffer environment 0
      (napi_value.typedarray napi_typedarray_type.napi_uint8_array data length)
      = (some data, length, true))
    (hE : (E.publicKeyFromSecretKey (readView s.mem (some data) length)).1 = true)
    (h1 : environment.new_buffer_ok = true) (h2 : environment.new_size_hint_ok = true)
    (h3 : environment.create_external_arraybuffer_ok = true)
    (h4 : environment.create_typedarray_ok = true) :
    (publicKeyFromSecretKey E environment s
        [napi_value.typedarray napi_typedarray_type.napi_uint8_array data length]).1
      = napi_value.typedarray napi_typedarray_type.napi_uint8_array
          (s.mem.length + 1) E.publicKeySize ∧
    (publicKeyFromSecretKey E environment s
        [napi_value.typedarray napi_typedarray_type.napi_uint8_array data length]).2.mem[
          s.mem.length + 1]?
      = some (Obj.bytes (outputBuffer environment E.publicKeySize
          (E.publicKeyFromSecretKey (readView s.mem (some data) length)).2)) := by
  have hcell := stack_buffer_cell environment s.mem E.publicKeySize
    (E.publicKeyFromSecretKey (readView s.mem (some data) length)).2
  have hlen : E.publicKeySize ≤ (outputBuffer environment E.publicKeySize
      (E.publicKeyFromSecretKey (readView s.mem (some data) length)).2).length := by
    simp [outputBuffer, length_overwrite]
  have hs := bufferToUint8Array_success environment
    { s with
      mem := (writeBytes (s.mem ++ [freshBytes environment E.publicKeySize]) s.mem.length
        (E.publicKeyFromSecretKey (readView s.mem (some data) length)).2),
      collaboratorCalls := s.collaboratorCalls + 1 }
    s.mem.length E.publicKeySize _ hcell hlen h1 h2 h3 h4
  simp only [length_writeBytes, List.length_append, List.length_singleton] at hs
  rw [List.take_of_length_le (by simp [outputBuffer, length_overwrite])] at hs
  have hpk : publicKeyFromSecretKey E environment s
      [napi_value.typedarray napi_typedarray_type.napi_uint8_array data length]
      = bufferToUint8Array environment
        { s with
          mem := (writeBytes (s.mem ++ [freshBytes environment E.publicKeySize]) s.mem.length
            (E.publicKeyFromSecretKey (readView s.mem (some data) length)).2),
          collaboratorCalls := s.collaboratorCalls + 1 }
        s.mem.length E.publicKeySize := by
    simp [publicKeyFromSecretKey, napi_get_cb_info, hc, hq, allocate,
      readView_append _ _ _ _ hd, hE]
  rw [hpk]
  exact hs

/-- The collaborator is invoked by `sign` only after `napi_get_cb_info` succeeded
and both arguments resolved. -/
theorem sign_invoked (E : Collaborator) (environment : Host) (s : State)
    (v w : napi_value)
    (h : (sign E environment s [v, w]).2.collaboratorCalls = s.collaboratorCalls + 1) :
    environment.get_cb_info_ok = true ∧ (uint8ArrayToBuffer environment 0 v).2.2 = true ∧
      (uint8ArrayToBuffer environment 1 w).2.2 = true := by
  by_cases hc : environment.get_cb_info_ok = true
  · by_cases hq : (uint8ArrayToBuffer environment 0 v).2.2 = true
    · by_cases hq2 : (uint8ArrayToBuffer environment 1 w).2.2 = true
      · exact ⟨hc, hq, hq2⟩
      · simp [sign, napi_get_cb_info, hc, hq, hq2] at h
    · simp [sign, napi_get_cb_info, hc, hq] at h
  · simp [sign, napi_get_cb_info, hc] at h

/-- The success path of `sign` in terms of host outcomes. -/
theorem sign_ok (E : Collaborator) (environment : Host) (s : State)
    (mdata mlength kdata klength : Nat) (hm : mdata < s.mem.length) (hk : kdata < s.mem.length)
    (hc : environment.get_cb_info_ok = true)
    (hq : uint8ArrayToBuffer environment 0
      (napi_value.typedarray napi_typedarray_type.napi_uint8_array mdata mlength)
      = (some mdata, mlength, true))
    (hq2 : uint8ArrayToBuffer environment 1
      (napi_value.typedarray napi_typedarray_type.napi_uint8_array kdata klength)
      = (some kdata, klength, true))
    (hE : (E.sign (readView s.mem (some mdata) mlength)
      (readView s.mem (some kdata) klength)).1 = true)
    (h1 : environment.new_buffer_ok = true) (h2 : environment.new_size_hint_ok = true)
    (h3 : environment.create_external_arraybuffer_ok = true)
    (h4 : environment.create_typedarray_ok = true) :
    (sign E environment s
        [napi_value.typedarray napi_typedarray_type.napi_uint8_array mdata mlength,
          napi_value.typedarray napi_typedarray_type.napi_uint8_array kdata klength]).1
      = napi_value.typedarray napi_typedarray_type.napi_uint8_array
          (s.mem.length + 1) E.signatureSize ∧
    (sign E environment s
        [napi_value.typedarray napi_typedarray_type.napi_uint8_array mdata mlength,
          napi_value.typedarray napi_typedarray_type.napi_uint8_array kdata klength]).2.mem[
          s.mem.length + 1]?
      = some (Obj.bytes (outputBuffer environment E.signatureSize
          (E.sign (readView s.mem (some mdata) mlength)
            (readView s.mem (some kdata) klength)).2)) := by
  have hcell := stack_buffer_cell environment s.mem E.signatureSize
    (E.sign (readView s.mem (some mdata) mlength) (readView s.mem (some kdata) klength)).2
  have hlen : E.signatureSize ≤ (outputBuffer environment E.signatureSize
      (E.sign (readView s.mem (some mdata) mlength)
        (readView s.mem (some kdata) klength)).2).length := by
    simp [outputBuffer, length_overwrite]
  have hs := bufferToUint8Array_success environment
    { s with
      mem := (writeBytes (s.mem ++ [freshBytes environment E.signatureSize]) s.mem.length
        (E.sign (readView s.mem (some mdata) mlength) (readView s.mem (some kdata) klength)).2),
      collaboratorCalls := s.collaboratorCalls + 1 }
    s.mem.length E.signatureSize _ hcell hlen h1 h2 h3 h4
  simp only [length_writeBytes, List.length_append, List.length_singleton] at hs
  rw [List.take_of_length_le (by simp [outputBuffer, length_overwrite])] at hs
  have hsg : sign E environment s
      [napi_value.typedarray napi_typedarray_type.napi_uint8_array mdata mlength,
        napi_value.typedarray napi_typedarray_type.napi_uint8_array kdata klength]
      = bufferToUint8Array environment
        { s with
          mem := (writeBytes (s.mem ++ [freshBytes environment E.signatureSize]) s.mem.length
            (E.sign (readView s.mem (some mdata) mlength)
              (readView s.mem (some kdata) klength)).2),
          collaboratorCalls := s.collaboratorCalls + 1 }
        s.mem.length E.signatureSize := by
    simp [sign, napi_get_cb_info, hc, hq, hq2, allocate,
      readView_append _ _ _ _ hm, readView_append _ _ _ _ hk, hE]
  rw [hsg]
  exact hs

/-- The length of an output buffer is its declared size. -/
theorem length_outputBuffer (environment : Host) (size : Nat) (w : List Byte) :
    (outputBuffer environment size w).length = size := by
  simp [outputBuffer, length_overwrite]

/-- C4: for a call of `publicKeyFromSecretKey` with exactly one argument that is
a uint8 typed array (living in memory), if the collaborator is invoked and
reports success and every allocation and host wrapping step of
`bufferToUint8Array` succeeds, the result is a uint8 array of exactly
`publicKeySize` bytes whose contents are the contents of the output buffer as
the collaborator left it. -/
theorem publicKeyFromSecretKey_returns_key (E : Collaborator) (environment : Host) (s : State)
    (data length : Nat) (hd : data < s.mem.length)
    (hinv : (publicKeyFromSecretKey E environment s
      [napi_value.typedarray napi_typedarray_type.napi_uint8_array data length]
      ).2.collaboratorCalls = s.collaboratorCalls + 1)
    (hE : (E.publicKeyFromSecretKey (readView s.mem (some data) length)).1 = true)
    (h1 : environment.new_buffer_ok = true) (h2 : environment.new_size_hint_ok = true)
    (h3 : environment.create_external_arraybuffer_ok = true)
    (h4 : environment.create_typedarray_ok = true) :
    ∃ buffer,
      (publicKeyFromSecretKey E environment s
        [napi_value.typedarray napi_typedarray_type.napi_uint8_array data length]).1
        = napi_value.typedarray napi_typedarray_type.napi_uint8_array buffer E.publicKeySize ∧
      readBytes (publicKeyFromSecretKey E environment s
        [napi_value.typedarray napi_typedarray_type.napi_uint8_array data length]).2.mem buffer
        = outputBuffer environment E.publicKeySize
          (E.publicKeyFromSecretKey (readView s.mem (some data) length)).2 ∧
      (readBytes (publicKeyFromSecretKey E environment s
        [napi_value.typedarray napi_typedarray_type.napi_uint8_array data length]).2.mem
        buffer).length = E.publicKeySize := by
  obtain ⟨hc, hq⟩ := publicKeyFromSecretKey_invoked E environment s _ hinv
  obtain ⟨d, l, hv, hres⟩ := uint8ArrayToBuffer_ok environment 0 _ hq
  simp only [napi_value.typedarray.injEq, true_and] at hv
  obtain ⟨rfl, rfl⟩ := hv
  obtain ⟨hr, hcell⟩ := publicKeyFromSecretKey_ok E environment s data length hd hc hres hE
    h1 h2 h3 h4
  refine ⟨s.mem.length + 1, hr, ?_, ?_⟩
  · simp [readBytes, hcell]
  · simp [readBytes, hcell, length_outputBuffer]

/-- Witness of C4: the demo secret key yields the two-byte public key `[2, 3]`. -/
theorem publicKeyFromSecretKey_returns_key_witness :
    ∃ buffer,
      (publicKeyFromSecretKey demoEd25519 demoHost demoState [demoSecretKey]).1
        = napi_value.typedarray napi_typedarray_type.napi_uint8_array buffer 2 ∧
      readBytes (publicKeyFromSecretKey demoEd25519 demoHost demoState
        [demoSecretKey]).2.mem buffer = [2, 3] ∧
      (readBytes (publicKeyFromSecretKey demoEd25519 demoHost demoState
        [demoSecretKey]).2.mem buffer).length = 2 :=
  publicKeyFromSecretKey_returns_key demoEd25519 demoHost demoState 1 2 (by decide)
    (by decide) (by decide) rfl rfl rfl rfl

/-- C5: for a call of `sign` with exactly two arguments that are both uint8
typed arrays (living in memory), if the collaborator is invoked and reports
success on the first argument's view as the message and the second argument's
view as the secret key, and every allocation and host wrapping step succeeds,
the result is a uint8 array of exactly `signatureSize` bytes whose contents are
the contents of the output buffer as the collaborator left it. -/
theorem sign_returns_signature (E : Collaborator) (environment : Host) (s : State)
    (mdata mlength kdata klength : Nat) (hm : mdata < s.mem.length) (hk : kdata < s.mem.length)
    (hinv : (sign E environment s
      [napi_value.typedarray napi_typedarray_type.napi_uint8_array mdata mlength,
        napi_value.typedarray napi_typedarray_type.napi_uint8_array kdata klength]
      ).2.collaboratorCalls = s.collaboratorCalls + 1)
    (hE : (E.sign (readView s.mem (some mdata) mlength)
      (readView s.mem (some kdata) klength)).1 = true)
    (h1 : environment.new_buffer_ok = true) (h2 : environment.new_size_hint_ok = true)
    (h3 : environment.create_external_arraybuffer_ok = true)
    (h4 : environment.create_typedarray_ok = true) :
    ∃ buffer,
      (sign E environment s
        [napi_value.typedarray napi_typedarray_type.napi_uint8_array mdata mlength,
          napi_value.typedarray napi_typedarray_type.napi_uint8_array kdata klength]).1
        = napi_value.typedarray napi_typedarray_type.napi_uint8_array buffer E.signatureSize ∧
      readBytes (sign E environment s
        [napi_value.typedarray napi_typedarray_type.napi_uint8_array mdata mlength,
          napi_value.typedarray napi_typedarray_type.napi_uint8_array kdata klength]).2.mem buffer
        = outputBuffer environment E.signatureSize
          (E.sign (readView s.mem (some mdata) mlength)
            (readView s.mem (some kdata) klength)).2 ∧
      (readBytes (sign E environment s
        [napi_value.typedarray napi_typedarray_type.napi_uint8_array mdata mlength,
          napi_value.typedarray napi_typedarray_type.napi_uint8_array kdata klength]).2.mem
        buffer).length = E.signatureSize := by
  obtain ⟨hc, hq, hq2⟩ := sign_invoked E environment s _ _ hinv
  obtain ⟨d, l, hv, hres⟩ := uint8ArrayToBuffer_ok environment 0 _ hq
  simp only [napi_value.typedarray.injEq, true_and] at hv
  obtain ⟨rfl, rfl⟩ := hv
  obtain ⟨d2, l2, hv2, hres2⟩ := uint8ArrayToBuffer_ok environment 1 _ hq2
  simp only [napi_value.typedarray.injEq, true_and] at hv2
  obtain ⟨rfl, rfl⟩ := hv2
  obtain ⟨hr, hcell⟩ := sign_ok E environment s mdata mlength kdata klength hm hk hc hres hres2
    hE h1 h2 h3 h4
  refine ⟨s.mem.length + 1, hr, ?_, ?_⟩
  · simp [readBytes, hcell]
  · simp [readBytes, hcell, length_outputBuffer]

/-- Witness of C5: the demo message signed with the demo secret key gives the
three-byte signature `[2, 2, 3]`. -/
theorem sign_returns_signature_witness :
    ∃ buffer,
      (sign demoEd25519 demoHost demoState [demoMessage, demoSecretKey]).1
        = napi_value.typedarray napi_typedarray_type.napi_uint8_array buffer 3 ∧
      readBytes (sign demoEd25519 demoHost demoState
        [demoMessage, demoSecretKey]).2.mem buffer = [2, 2, 3] ∧
      (readBytes (sign demoEd25519 demoHost demoState
        [demoMessage, demoSecretKey]).2.mem buffer).length = 3 :=
  sign_returns_signature demoEd25519 demoHost demoState 0 2 1 2 (by decide) (by decide)
    (by decide) (by decide) rfl rfl rfl rfl


/-! ## The shape of a dispatcher run, and the frame of the boundary layer (C10) -/

/-- The state of a dispatcher once its stack output buffer of `size` bytes exists
and the collaborator has written `w` into it. -/
theorem publicKeyFromSecretKey_cases (E : Collaborator) (environment : Host) (s : State)
    (arguments : List napi_value) :
    publicKeyFromSecretKey E environment s arguments = (OPERATION_FAILED, s) ∨
    ∃ w, publicKeyFromSecretKey E environment s arguments
        = (OPERATION_FAILED,
            { s with
              mem := (writeBytes (s.mem ++ [freshBytes environment E.publicKeySize])
                s.mem.length w),
              collaboratorCalls := s.collaboratorCalls + 1 }) ∨
      publicKeyFromSecretKey E environment s arguments
        = bufferToUint8Array environment
            { s with
              mem := (writeBytes (s.mem ++ [freshBytes environment E.publicKeySize])
                s.mem.length w),
              collaboratorCalls := s.collaboratorCalls + 1 }
            s.mem.length E.publicKeySize := by
  unfold publicKeyFromSecretKey
  simp only [allocate]
  split_ifs
  · exact Or.inl rfl
  · exact Or.inl rfl
  · exact Or.inr ⟨_, Or.inl rfl⟩
  · exact Or.inr ⟨_, Or.inr rfl⟩

/-- The three ways a run of `sign` can end. -/
theorem sign_cases (E : Collaborator) (environment : Host) (s : State)
    (arguments : List napi_value) :
    sign E environment s arguments = (OPERATION_FAILED, s) ∨
    ∃ w, sign E environment s arguments
        = (OPERATION_FAILED,
            { s with
              mem := (writeBytes (s.mem ++ [freshBytes environment E.signatureSize])
                s.mem.length w),
              collaboratorCalls := s.collaboratorCalls + 1 }) ∨
      sign E environment s arguments
        = bufferToUint8Array environment
            { s with
              mem := (writeBytes (s.mem ++ [freshBytes environment E.signatureSize])
                s.mem.length w),
              collaboratorCalls := s.collaboratorCalls + 1 }
            s.mem.length E.signatureSize := by
  unfold sign
  simp only [allocate]
  split_ifs
  · exact Or.inl rfl
  · exact Or.inl rfl
  · exact Or.inl rfl
  · exact Or.inr ⟨_, Or.inl rfl⟩
  · exact Or.inr ⟨_, Or.inr rfl⟩

/-- The function `verify` leaves the memory as it found it. -/
theorem verify_mem (E : Collaborator) (environment : Host) (s : State)
    (arguments : List napi_value) : (verify E environment s arguments).2.mem = s.mem := by
  unfold verify
  simp only []
  split_ifs <;> rfl

/-- Writing into a freshly placed stack buffer leaves the older objects alone. -/
theorem getElem?_stack_write (m : List Obj) (o : Obj) (w : List Byte) (q : Nat)
    (hq : q < m.length) : (writeBytes (m ++ [o]) m.length w)[q]? = m[q]? := by
  rw [getElem?_writeBytes_ne _ _ _ _ (by omega), List.getElem?_append_left hq]

/-- Objects in memory before `publicKeyFromSecretKey` are unchanged by it. -/
theorem publicKeyFromSecretKey_frame (E : Collaborator) (environment : Host) (s : State)
    (arguments : List napi_value) (q : Nat) (hq : q < s.mem.length) :
    (publicKeyFromSecretKey E environment s arguments).2.mem[q]? = s.mem[q]? := by
  rcases publicKeyFromSecretKey_cases E environment s arguments with h | ⟨w, h | h⟩
  · rw [h]
  · rw [h]
    exact getElem?_stack_write _ _ _ _ hq
  · rw [h, bufferToUint8Array_frame _ _ _ _ _ (by simp [length_writeBytes]; omega)
      (by simp; omega)]
    exact getElem?_stack_write _ _ _ _ hq

/-- Objects in memory before `sign` are unchanged by it. -/
theorem sign_frame (E : Collaborator) (environment : Host) (s : State)
    (arguments : List napi_value) (q : Nat) (hq : q < s.mem.length) :
    (sign E environment s arguments).2.mem[q]? = s.mem[q]? := by
  rcases sign_cases E environment s arguments with h | ⟨w, h | h⟩
  · rw [h]
  · rw [h]
    exact getElem?_stack_write _ _ _ _ hq
  · rw [h, bufferToUint8Array_frame _ _ _ _ _ (by simp [length_writeBytes]; omega)
      (by simp; omega)]
    exact getElem?_stack_write _ _ _ _ hq

/-- C10: the boundary layer never writes to memory that existed before the
call.  For every call of `publicKeyFromSecretKey`, `sign` or `verify`, on every
exit path, every object that was in memory before the call (so every caller
array) holds afterwards what it held before; the writes go to the stack output
buffer and to the heap objects the call itself created.  The collaborator is a
function of the bytes of the views, so it does not write through them. -/
theorem caller_memory_unchanged (E : Collaborator) (environment : Host) (s : State)
    (arguments : List napi_value) (q : Nat) (hq : q < s.mem.length) :
    (publicKeyFromSecretKey E environment s arguments).2.mem[q]? = s.mem[q]? ∧
    (sign E environment s arguments).2.mem[q]? = s.mem[q]? ∧
    (verify E environment s arguments).2.mem[q]? = s.mem[q]? :=
  ⟨publicKeyFromSecretKey_frame E environment s arguments q hq,
    sign_frame E environment s arguments q hq,
    by rw [verify_mem]⟩

/-- Witness of C10: the secret key at address 1 after deriving, signing and verifying. -/
theorem caller_memory_unchanged_witness :
    1 < demoState.mem.length ∧
    ((publicKeyFromSecretKey demoEd25519 demoHost demoState [demoSecretKey]).2.mem[1]?
        = demoState.mem[1]? ∧
      (sign demoEd25519 demoHost demoState [demoSecretKey]).2.mem[1]? = demoState.mem[1]? ∧
      (verify demoEd25519 demoHost demoState [demoSecretKey]).2.mem[1]? = demoState.mem[1]?) :=
  ⟨by decide, caller_memory_unchanged demoEd25519 demoHost demoState [demoSecretKey] 1
    (by decide)⟩

/-! ## Exit paths that miss the discipline (C8, C9) -/

/-- C8 fails on the code: when the collaborator writes into the stack output
buffer and then reports failure, `publicKeyFromSecretKey` and `sign` return the
sentinel at once and the buffer (address 3 here) keeps the written byte and the
bytes it held before; it is not zeroed. -/
theorem stack_buffer_not_zeroed_on_rejection :
    (publicKeyFromSecretKey demoEd25519 demoHost demoState [demoShortKey]).1
      = OPERATION_FAILED ∧
    readBytes (publicKeyFromSecretKey demoEd25519 demoHost demoState [demoShortKey]).2.mem 3
      = [7, 170] ∧
    allZero (readBytes
      (publicKeyFromSecretKey demoEd25519 demoHost demoState [demoShortKey]).2.mem 3) = false ∧
    (sign demoEd25519 demoHost demoState [demoMessage, demoShortKey]).1 = OPERATION_FAILED ∧
    readBytes (sign demoEd25519 demoHost demoState [demoMessage, demoShortKey]).2.mem 3
      = [9, 170, 170] ∧
    allZero (readBytes
      (sign demoEd25519 demoHost demoState [demoMessage, demoShortKey]).2.mem 3) = false := by
  decide

/-- C9 fails on the code: when the external array buffer was created and
creating the typed array then fails, `bufferToUint8Array` releases the result
buffer (address 3) and the size tag (address 4) itself, and the finalizer the
host still holds releases both again: each is released twice. -/
theorem double_release_when_typedarray_fails :
    (bufferToUint8Array { demoHost with create_typedarray_ok := false } demoState 1 2).1
      = OPERATION_FAILED ∧
    (bufferToUint8Array { demoHost with create_typedarray_ok := false } demoState 1 2
      ).2.finalizers = [(3, 4)] ∧
    (runFinalizers (bufferToUint8Array { demoHost with create_typedarray_ok := false }
      demoState 1 2).2).released
      = [(3, Obj.bytes [0, 0]), (4, Obj.sizeTag 2), (3, Obj.bytes [0, 0]), (4, Obj.sizeTag 2)] ∧
    releaseCount (runFinalizers (bufferToUint8Array
      { demoHost with create_typedarray_ok := false } demoState 1 2).2) 3 = 2 ∧
    releaseCount (runFinalizers (bufferToUint8Array
      { demoHost with create_typedarray_ok := false } demoState 1 2).2) 4 = 2 := by
  decide

/-! ## Round trip through the boundary (C6) -/

/-- Reading a view of a byte object. -/
theorem readView_of_cell (m : List Obj) (p n : Nat) (bs : List Byte)
    (h : m[p]? = some (Obj.bytes bs)) : readView m (some p) n = bs.take n := by
  simp [readView, readBytes, h]

/-- Reading a view depends only on the object it points to. -/
theorem readView_congr (m m2 : List Obj) (p n : Nat) (h : m2[p]? = m[p]?) :
    readView m2 (some p) n = readView m (some p) n := by
  simp [readView, readBytes, h]

/-- An address that holds an object is within the memory. -/
theorem lt_length_of_getElem? (m : List Obj) (p : Nat) (o : Obj) (h : m[p]? = some o) :
    p < m.length := by
  by_contra hn
  rw [List.getElem?_eq_none (by omega)] at h
  simp at h

/-- The function `verify` on three uint8 arrays, when the host calls succeed:
the collaborator's verdict on the three views. -/
theorem verify_on_uint8 (E : Collaborator) (environment : Host) (s : State)
    (a la b lb c lc : Nat) (hb : environment.get_boolean_ok = true)
    (hc : environment.get_cb_info_ok = true)
    (ht : ∀ i, environment.is_typedarray_ok i = true)
    (hi : ∀ i, environment.get_typedarray_info_ok i = true) :
    (verify E environment s
      [napi_value.typedarray napi_typedarray_type.napi_uint8_array a la,
        napi_value.typedarray napi_typedarray_type.napi_uint8_array b lb,
        napi_value.typedarray napi_typedarray_type.napi_uint8_array c lc]).1
      = napi_value.boolean (E.verify (readView s.mem (some a) la)
          (readView s.mem (some b) lb) (readView s.mem (some c) lc)) := by
  rw [verify_fst_eq_spec E environment s _ hc, cBoolToBool_of_ok environment _ hb]
  simp [verifySpec, uint8ArrayToBuffer_uint8 environment _ _ _ (ht _) (hi _)]

/-- An output buffer that the collaborator filled holds exactly what it wrote. -/
theorem outputBuffer_of_length_eq (environment : Host) (size : Nat) (w : List Byte)
    (h : w.length = size) : outputBuffer environment size w = w := by
  unfold outputBuffer
  exact overwrite_of_length_eq _ _ (by simp [h])

/-- C6: round trip through the boundary.  If the collaborator satisfies its
round-trip contract for valid secret keys and no host step fails, then for
every message and every valid secret key given as uint8 arrays in memory,
calling `publicKeyFromSecretKey`, then `sign`, then `verify` on the message,
the returned signature and the returned public key yields `true`. -/
theorem round_trip (E : Collaborator) (environment : Host) (s : State)
    (valid : List Byte → Prop) (mdata mlength kdata klength : Nat)
    (hE : collaboratorRoundTrip E valid) (hh : hostSucceeds environment)
    (hm : mdata < s.mem.length) (hk : kdata < s.mem.length)
    (hv : valid (readView s.mem (some kdata) klength)) :
    (verify E environment
      (sign E environment
        (publicKeyFromSecretKey E environment s
          [napi_value.typedarray napi_typedarray_type.napi_uint8_array kdata klength]).2
        [napi_value.typedarray napi_typedarray_type.napi_uint8_array mdata mlength,
          napi_value.typedarray napi_typedarray_type.napi_uint8_array kdata klength]).2
      [napi_value.typedarray napi_typedarray_type.napi_uint8_array mdata mlength,
        (sign E environment
          (publicKeyFromSecretKey E environment s
            [napi_value.typedarray napi_typedarray_type.napi_uint8_array kdata klength]).2
          [napi_value.typedarray napi_typedarray_type.napi_uint8_array mdata mlength,
            napi_value.typedarray napi_typedarray_type.napi_uint8_array kdata klength]).1,
        (publicKeyFromSecretKey E environment s
          [napi_value.typedarray napi_typedarray_type.napi_uint8_array kdata klength]).1]).1
      = napi_value.boolean true := by
  obtain ⟨hc, ht, hi, hb, h1, h2, h3, h4⟩ := hh
  obtain ⟨hpk, hpklen, hsg, hsglen, hver⟩ :=
    hE (readView s.mem (some mdata) mlength) (readView s.mem (some kdata) klength) hv
  -- deriving the public key
  obtain ⟨hr1, hcell1⟩ := publicKeyFromSecretKey_ok E environment s kdata klength hk hc
    (uint8ArrayToBuffer_uint8 environment 0 kdata klength (ht 0) (hi 0)) hpk h1 h2 h3 h4
  rw [outputBuffer_of_length_eq _ _ _ hpklen] at hcell1
  have hfm1 := publicKeyFromSecretKey_frame E environment s
    [napi_value.typedarray napi_typedarray_type.napi_uint8_array kdata klength] mdata hm
  have hfk1 := publicKeyFromSecretKey_frame E environment s
    [napi_value.typedarray napi_typedarray_type.napi_uint8_array kdata klength] kdata hk
  generalize publicKeyFromSecretKey E environment s
    [napi_value.typedarray napi_typedarray_type.napi_uint8_array kdata klength] = r1
    at hr1 hcell1 hfm1 hfk1 ⊢
  have hlen1 : s.mem.length + 1 < r1.2.mem.length := lt_length_of_getElem? _ _ _ hcell1
  have hm1 : mdata < r1.2.mem.length := by omega
  have hk1 : kdata < r1.2.mem.length := by omega
  have hvm1 : readView r1.2.mem (some mdata) mlength = readView s.mem (some mdata) mlength :=
    readView_congr _ _ _ _ hfm1
  have hvk1 : readView r1.2.mem (some kdata) klength = readView s.mem (some kdata) klength :=
    readView_congr _ _ _ _ hfk1
  -- signing
  obtain ⟨hr2, hcell2⟩ := sign_ok E environment r1.2 mdata mlength kdata klength hm1 hk1 hc
    (uint8ArrayToBuffer_uint8 environment 0 mdata mlength (ht 0) (hi 0))
    (uint8ArrayToBuffer_uint8 environment 1 kdata klength (ht 1) (hi 1))
    (by rw [hvm1, hvk1]; exact hsg) h1 h2 h3 h4
  rw [hvm1, hvk1, outputBuffer_of_length_eq _ _ _ hsglen] at hcell2
  have hfm2 := sign_frame E environment r1.2
    [napi_value.typedarray napi_typedarray_type.napi_uint8_array mdata mlength,
      napi_value.typedarray napi_typedarray_type.napi_uint8_array kdata klength] mdata hm1
  have hfp2 := sign_frame E environment r1.2
    [napi_value.typedarray napi_typedarray_type.napi_uint8_array mdata mlength,
      napi_value.typedarray napi_typedarray_type.napi_uint8_array kdata klength]
    (s.mem.length + 1) hlen1
  generalize sign E environment r1.2
    [napi_value.typedarray napi_typedarray_type.napi_uint8_array mdata mlength,
      napi_value.typedarray napi_typedarray_type.napi_uint8_array kdata klength] = r2
    at hr2 hcell2 hfm2 hfp2 ⊢
  -- verifying
  rw [hr2, hr1, verify_on_uint8 E environment r2.2 _ _ _ _ _ _ hb hc ht hi]
  have hvm2 : readView r2.2.mem (some mdata) mlength = readView s.mem (some mdata) mlength := by
    rw [readView_congr _ _ _ _ hfm2, hvm1]
  have hvs : readView r2.2.mem (some (r1.2.mem.length + 1)) E.signatureSize
      = (E.sign (readView s.mem (some mdata) mlength)
          (readView s.mem (some kdata) klength)).2 := by
    rw [readView_of_cell _ _ _ _ hcell2, List.take_of_length_le (by omega)]
  have hvp : readView r2.2.mem (some (s.mem.length + 1)) E.publicKeySize
      = (E.publicKeyFromSecretKey (readView s.mem (some kdata) klength)).2 := by
    rw [readView_of_cell _ _ _ _ (hfp2.trans hcell1), List.take_of_length_le (by omega)]
  rw [hvm2, hvs, hvp, hver]

/-- Witness of C6: the demo collaborator with the two-byte keys as valid keys,
on the demo message and secret key. -/
theorem round_trip_witness :
    (verify demoEd25519 demoHost
      (sign demoEd25519 demoHost
        (publicKeyFromSecretKey demoEd25519 demoHost demoState [demoSecretKey]).2
        [demoMessage, demoSecretKey]).2
      [demoMessage,
        (sign demoEd25519 demoHost
          (publicKeyFromSecretKey demoEd25519 demoHost demoState [demoSecretKey]).2
          [demoMessage, demoSecretKey]).1,
        (publicKeyFromSecretKey demoEd25519 demoHost demoState [demoSecretKey]).1]).1
      = napi_value.boolean true :=
  round_trip demoEd25519 demoHost demoState (fun sk => sk.length = 2) 0 2 1 2
    (by
      intro m sk hsk
      simp [demoEd25519, hsk])
    ⟨rfl, fun _ => rfl, fun _ => rfl, rfl, rfl, rfl, rfl, rfl⟩
    (by decide) (by decide) (by decide)

end Ed25519Addon
